import Mathlib

/-!
Verification development for the credential-verification core of the
content-processing solution accelerator.

The definitions below are a shallow embedding of:
  * `libs/pipeline/handlers/logics/verify_handler/model.py`
  * `libs/pipeline/handlers/logics/verify_handler/doctor_verifier.py`
  * `libs/pipeline/handlers/verify_handler.py`
and (modelled from the specification, since the module itself ships only with
its tests) of the confidence-merge algorithm of
`libs/pipeline/handlers/logics/evaluate_handler/confidence.py`.

Modelling conventions:
  * Python `float` scores and times are modelled as `ℚ`.
  * Python `None`-able strings are `Option String`; Python truthiness of a
    string (`if s:`) is `truthy`, which is false for `None` and for `""`.
  * JSON dictionaries (registry detail payloads) are association lists
    `List (String × DetailValue)` preserving Python dict insertion order;
    `dictInsert` mirrors Python `d[k] = v` (update in place, else append).
  * The HTTP layer is an environment of oracle functions; each call either
    returns a `(status_code, parsed_body)` pair or raises a Python exception,
    modelled by `PyExn`.  `httpx` timeout exceptions are NOT subclasses of
    `asyncio.TimeoutError`, which the exception model records.
  * Wall-clock reads (`time.strftime`, elapsed milliseconds) are abstracted
    into environment fields `now` / `elapsedMs`.
-/

namespace ContentVerify

/-- `VerificationStatus` from `model.py` (`VerificationStatus(str, Enum)`). -/
inductive VerificationStatus
  | verified
  | not_found
  | invalid
  | expired
  | revoked
  | error
  | skipped
deriving DecidableEq, Repr

/-- `VerificationType` from `model.py`. -/
inductive VerificationType
  | doctor
  | notary
  | death_certificate
  | identity
deriving DecidableEq, Repr

/-- A JSON-ish scalar stored in a registry details payload. -/
inductive DetailValue
  | str (s : String)
  | num (n : Nat)
  | bool (b : Bool)
  | null
deriving DecidableEq, Repr

/-- Details payloads are Python dicts with string keys, kept in insertion order. -/
abbrev Details := List (String × DetailValue)

/-- Python `d[k] = v` / `{**d, k: v}` semantics on an association list:
update the value in place when the key is present, append otherwise. -/
def dictInsert {α β : Type} [BEq α] : List (α × β) → α → β → List (α × β)
  | [], k, v => [(k, v)]
  | (k0, v0) :: rest, k, v =>
      if k0 == k then (k0, v) :: rest else (k0, v0) :: dictInsert rest k v

/-- `VerificationResult` from `model.py`. -/
structure VerificationResult where
  field_name : String
  extracted_value : Option String := none
  verification_type : VerificationType
  status : VerificationStatus
  details : Option Details := none
  timestamp : String := ""
  api_response_time : ℚ := 0
  error_message : Option String := none
deriving DecidableEq, Repr

/-- `VerificationMetadata` from `model.py`; `verifications_by_type` is a dict
of per-type count dicts. -/
structure VerificationMetadata where
  total_fields_checked : Nat
  verified_count : Nat
  not_found_count : Nat
  invalid_count : Nat
  expired_count : Nat
  revoked_count : Nat
  error_count : Nat
  skipped_count : Nat
  total_api_calls : Nat
  total_api_time : ℚ
  verification_timestamp : String
  verifications_by_type : List (String × List (String × Nat)) := []
deriving DecidableEq, Repr

/-- Python exceptions that can cross the verifier's lookup boundary.
`httpxTimeoutErr` models `httpx.TimeoutException` (raised by the HTTP client
on a request timeout); it is not a subclass of `asyncio.TimeoutError`, which
is modelled separately as `asyncioTimeoutErr`. -/
inductive PyExn
  | asyncioTimeoutErr
  | httpxTimeoutErr (msg : String)
  | genericErr (msg : String)
deriving DecidableEq, Repr

/-- Python `str(e)` for a modelled exception. -/
def pyStr : PyExn → String
  | .asyncioTimeoutErr => "asyncio.TimeoutError"
  | .httpxTimeoutErr m => m
  | .genericErr m => m

/-- Whether `except asyncio.TimeoutError` catches the exception.  Only
`asyncio.TimeoutError` itself qualifies: `httpx` timeout exceptions do not
inherit from it. -/
def isAsyncioTimeout : PyExn → Bool
  | .asyncioTimeoutErr => true
  | _ => false

/-- One HTTP request: either a response (status code plus parsed JSON body)
or a raised exception. -/
inductive HttpOutcome (α : Type)
  | ok (status_code : Nat) (body : α)
  | exn (e : PyExn)

/-- The `basic` sub-object of an NPI registry provider record; every field is
read with `.get`, so all are optional. -/
structure NpiBasic where
  first_name : Option String := none
  last_name : Option String := none
  status : Option String := none
  credential : Option String := none
deriving DecidableEq, Repr

/-- One entry of a provider record's `taxonomies` array. -/
structure NpiTaxonomy where
  desc : Option String := none
deriving DecidableEq, Repr

/-- One provider record of an NPI registry response; `basic` defaults to an
empty object, mirroring `result.get("basic", {})`. -/
structure NpiRecord where
  number : Option String := none
  basic : NpiBasic := {}
  taxonomies : List NpiTaxonomy := []
deriving DecidableEq, Repr

/-- Parsed JSON body of an NPI registry response
(`result_count` defaults to 0, `results` to `[]`). -/
structure NpiResponse where
  result_count : Nat := 0
  results : List NpiRecord := []
deriving DecidableEq, Repr

/-- The external world seen by the verifier: the registry endpoints as
oracles, plus abstracted clock reads. -/
structure VerifierEnv where
  npiLookup : String → HttpOutcome NpiResponse
  nameLookup : String → String → String → HttpOutcome NpiResponse
  licenseLookup : String → String → HttpOutcome Details
  now : String := ""
  elapsedMs : ℚ := 0

/-- Configuration and state of `DoctorCredentialVerifier.__init__`. -/
structure DoctorCredentialVerifier where
  npi_api_endpoint : String := "https://npiregistry.cms.hhs.gov/api/"
  state_license_api_endpoint : Option String := none
  api_key : Option String := none
  timeout : Nat := 30
  cache : List (String × Details) := []
deriving Repr

/-- Python `str.lower()` (character-wise, as the registry fields are ASCII). -/
def pyLower (s : String) : String :=
  String.mk (s.toList.map Char.toLower)

/-- Python `str.strip()`: drop leading and trailing whitespace. -/
def pyStrip (s : String) : String :=
  String.mk
    (((s.toList.dropWhile Char.isWhitespace).reverse.dropWhile Char.isWhitespace).reverse)

/-- Python `str.split()` with no separator: split on whitespace runs,
producing no empty tokens. -/
def pySplitWs (s : String) : List String :=
  ((s.toList.foldr
      (fun c acc =>
        if c.isWhitespace then [] :: acc
        else
          match acc with
          | [] => [[c]]
          | w :: ws => (c :: w) :: ws)
      ([] : List (List Char))).filter (fun w => !w.isEmpty)).map String.mk

/-- Helper for `pyReplace`: scan the text left to right, substituting each
non-overlapping occurrence of `pat`; `fuel` bounds the recursion by the text
length. -/
def pyReplaceAux (pat rep : List Char) : Nat → List Char → List Char
  | _, [] => []
  | 0, l => l
  | Nat.succ fuel, c :: rest =>
      if !pat.isEmpty && pat.isPrefixOf (c :: rest) then
        rep ++ pyReplaceAux pat rep fuel ((c :: rest).drop pat.length)
      else
        c :: pyReplaceAux pat rep fuel rest

/-- Python `str.replace(pat, rep)`: replace every non-overlapping occurrence,
scanning left to right. -/
def pyReplace (s pat rep : String) : String :=
  String.mk (pyReplaceAux pat.toList rep.toList s.toList.length s.toList)

/-- Python truthiness of an optional string: `None` and `""` are falsy. -/
def truthy : Option String → Bool
  | none => false
  | some s => !(s == "")

/-- Python `a or b` on optional strings (first operand if truthy, else second). -/
def pyOr (a b : Option String) : Option String :=
  if truthy a then a else b

/-- Python `None`-or-string to JSON detail value. -/
def optStr : Option String → DetailValue
  | some s => .str s
  | none => .null

/-- Python `f"{basic.get('first_name', '')} {basic.get('last_name', '')}".strip()`. -/
def fmtName (f l : Option String) : String :=
  pyStrip ((f.getD "") ++ " " ++ (l.getD ""))

/-- The normalized details written by the NPI-number strategy in its
active-provider branch, including the optional `specialty` entry taken from
the first taxonomy when `result.get("taxonomies")` is truthy (non-empty). -/
def detailsOfNpiRecord (r : NpiRecord) : Details :=
  [("npi", optStr r.number),
   ("name", .str (fmtName r.basic.first_name r.basic.last_name)),
   ("credential", optStr r.basic.credential),
   ("status", .str "Active"),
   ("cached", .bool false)]
  ++ (match r.taxonomies with
      | [] => []
      | t :: _ => [("specialty", optStr t.desc)])

/-- `DoctorCredentialVerifier._verify_by_npi`.  Returns the outcome (a result
or a propagating exception), the cache after the call, and the number of HTTP
requests issued. -/
def verify_by_npi (v : DoctorCredentialVerifier) (env : VerifierEnv)
    (field_name npi_number : String) :
    Except PyExn VerificationResult × List (String × Details) × Nat :=
  match v.cache.lookup npi_number with
  | some cached_result =>
      (.ok { field_name := field_name, extracted_value := some npi_number,
             verification_type := .doctor, status := .verified,
             details := some (dictInsert cached_result "cached" (.bool true)),
             timestamp := env.now, api_response_time := env.elapsedMs },
       v.cache, 0)
  | none =>
    match env.npiLookup npi_number with
    | .exn e => (.error e, v.cache, 1)
    | .ok code data =>
      if code == 200 && data.result_count != 0 then
        match data.results with
        | [] =>
            -- Python `data["results"][0]` raises IndexError on an empty array
            (.error (.genericErr "list index out of range"), v.cache, 1)
        | r :: _ =>
          let status := (r.basic.status).getD ""
          if status != "A" then
            (.ok { field_name := field_name, extracted_value := some npi_number,
                   verification_type := .doctor, status := .invalid,
                   details := some [("reason", .str "NPI status is not Active"),
                                    ("npi_status", .str status)],
                   timestamp := env.now, api_response_time := env.elapsedMs },
             v.cache, 1)
          else
            let details := detailsOfNpiRecord r
            (.ok { field_name := field_name, extracted_value := some npi_number,
                   verification_type := .doctor, status := .verified,
                   details := some details,
                   timestamp := env.now, api_response_time := env.elapsedMs },
             dictInsert v.cache npi_number details, 1)
      else
        (.ok { field_name := field_name, extracted_value := some npi_number,
               verification_type := .doctor, status := .not_found,
               timestamp := env.now, api_response_time := env.elapsedMs },
         v.cache, 1)

/-- Python `data.get("status", "").lower()` on a license-board response body.
The registry interface promises a string-typed `status`. -/
def licenseStatusOf (data : Details) : String :=
  match data.lookup "status" with
  | some (.str s) => pyLower s
  | _ => ""

/-- `DoctorCredentialVerifier._verify_by_state_license`.  Returns the outcome
and the number of HTTP requests issued (the cache is untouched here). -/
def verify_by_state_license (v : DoctorCredentialVerifier) (env : VerifierEnv)
    (field_name license_number state : String) :
    Except PyExn VerificationResult × Nat :=
  if !(truthy v.state_license_api_endpoint) || !(truthy v.api_key) then
    (.ok { field_name := field_name, extracted_value := some license_number,
           verification_type := .doctor, status := .skipped,
           error_message := some "State license API not configured",
           timestamp := env.now, api_response_time := env.elapsedMs },
     0)
  else
    match env.licenseLookup license_number state with
    | .exn e => (.error e, 1)
    | .ok code data =>
      if code == 200 then
        let status := licenseStatusOf data
        if status == "active" then
          (.ok { field_name := field_name, extracted_value := some license_number,
                 verification_type := .doctor, status := .verified,
                 details := some data,
                 timestamp := env.now, api_response_time := env.elapsedMs }, 1)
        else if status == "expired" then
          (.ok { field_name := field_name, extracted_value := some license_number,
                 verification_type := .doctor, status := .expired,
                 details := some data,
                 timestamp := env.now, api_response_time := env.elapsedMs }, 1)
        else if status == "revoked" || status == "suspended" then
          (.ok { field_name := field_name, extracted_value := some license_number,
                 verification_type := .doctor, status := .revoked,
                 details := some data,
                 timestamp := env.now, api_response_time := env.elapsedMs }, 1)
        else
          (.ok { field_name := field_name, extracted_value := some license_number,
                 verification_type := .doctor, status := .not_found,
                 timestamp := env.now, api_response_time := env.elapsedMs }, 1)
      else
        (.ok { field_name := field_name, extracted_value := some license_number,
               verification_type := .doctor, status := .not_found,
               timestamp := env.now, api_response_time := env.elapsedMs }, 1)

/-- Python `doctor_name.replace("Dr.", "").replace("Dr", "").strip().split()`:
strip courtesy titles, then split on whitespace runs with no empty tokens. -/
def parseNameParts (doctor_name : String) : List String :=
  pySplitWs (pyStrip (pyReplace (pyReplace doctor_name "Dr." "") "Dr" ""))

/-- Case-insensitive exact comparison of a provider record's given/family
names against the searched first and last name. -/
def isExactMatch (first last : String) (r : NpiRecord) : Bool :=
  (pyLower (r.basic.first_name.getD "") == pyLower first) &&
  (pyLower (r.basic.last_name.getD "") == pyLower last)

/-- Python `basic.get("status") == "A"`. -/
def isActiveRec (r : NpiRecord) : Bool :=
  r.basic.status == some "A"

/-- The `for result in data.get("results", [])` loop of
`_verify_by_name_and_state`: appends each exact-name match to `all_matches`,
and also to `active_matches` when its status is `"A"`.
Returns `(active_matches, all_matches)`. -/
def collectMatches (first last : String) (results : List NpiRecord) :
    List NpiRecord × List NpiRecord :=
  results.foldl
    (fun acc r =>
      if isExactMatch first last r then
        ((if isActiveRec r then acc.1 ++ [r] else acc.1), acc.2 ++ [r])
      else acc)
    ([], [])

/-- Details payload built for a single exact name-and-state match. -/
def detailsOfNameMatch (state : String) (r : NpiRecord) : Details :=
  [("npi", optStr r.number),
   ("name", .str (fmtName r.basic.first_name r.basic.last_name)),
   ("credential", optStr r.basic.credential),
   ("status", .str (if r.basic.status == some "A" then "Active" else "Inactive")),
   ("state", .str state),
   ("verification_method", .str "name_and_state")]
  ++ (match r.taxonomies with
      | [] => []
      | t :: _ => [("specialty", optStr t.desc)])

/-- Message of the zero-result branch of `_verify_by_name_and_state`. -/
def noProvidersMsg (doctor_name state : String) : String :=
  "No providers found with name \x27" ++ doctor_name ++ "\x27 in state " ++ state

/-- Message of the ambiguous-match branch of `_verify_by_name_and_state`. -/
def multipleProvidersMsg (doctor_name state : String) : String :=
  "Multiple providers found with name \x27" ++ doctor_name ++ "\x27 in " ++ state
    ++ ". Cannot verify without NPI or license number."

/-- Message of the similar-names branch of `_verify_by_name_and_state`. -/
def similarProvidersMsg (result_count : Nat) (state doctor_name : String) : String :=
  "Found " ++ toString result_count ++ " providers with similar names in " ++ state
    ++ ", but no exact match for \x27" ++ doctor_name ++ "\x27"

/-- Python `first_name = name_parts[0]`. -/
def nameFirst (doctor_name : String) : String :=
  (parseNameParts doctor_name).headD ""

/-- Python `last_name = name_parts[-1]` (middle names/initials ignored). -/
def nameLast (doctor_name : String) : String :=
  (parseNameParts doctor_name).getLastD ""

/-- Python `matches = active_matches if active_matches else all_matches`:
the preferred disambiguation subset of a name search's results. -/
def nameMatchesOf (doctor_name : String) (results : List NpiRecord) :
    List NpiRecord :=
  let cm := collectMatches (nameFirst doctor_name) (nameLast doctor_name) results
  if cm.1.isEmpty then cm.2 else cm.1

/-- `DoctorCredentialVerifier._verify_by_name_and_state`.  Returns the
outcome and the number of HTTP requests issued. -/
def verify_by_name_and_state (env : VerifierEnv)
    (field_name doctor_name state : String) :
    Except PyExn VerificationResult × Nat :=
  if (parseNameParts doctor_name).length < 2 then
    (.ok { field_name := field_name, extracted_value := some doctor_name,
           verification_type := .doctor, status := .error,
           error_message := some "Unable to parse first and last name",
           timestamp := env.now, api_response_time := env.elapsedMs },
     0)
  else
    match env.nameLookup (nameFirst doctor_name) (nameLast doctor_name) state with
    | .exn e => (.error e, 1)
    | .ok code data =>
      if code == 200 then
        if data.result_count == 0 then
          (.ok { field_name := field_name, extracted_value := some doctor_name,
                 verification_type := .doctor, status := .not_found,
                 error_message := some (noProvidersMsg doctor_name state),
                 timestamp := env.now, api_response_time := env.elapsedMs }, 1)
        else
          match nameMatchesOf doctor_name data.results with
          | [r] =>
            (.ok { field_name := field_name, extracted_value := some doctor_name,
                   verification_type := .doctor, status := .verified,
                   details := some (detailsOfNameMatch state r),
                   timestamp := env.now, api_response_time := env.elapsedMs }, 1)
          | [] =>
            (.ok { field_name := field_name, extracted_value := some doctor_name,
                   verification_type := .doctor, status := .not_found,
                   error_message :=
                     some (similarProvidersMsg data.result_count state doctor_name),
                   timestamp := env.now, api_response_time := env.elapsedMs }, 1)
          | ms =>
            (.ok { field_name := field_name, extracted_value := some doctor_name,
                   verification_type := .doctor, status := .invalid,
                   error_message := some (multipleProvidersMsg doctor_name state),
                   details := some [("match_count", .num ms.length)],
                   timestamp := env.now, api_response_time := env.elapsedMs }, 1)
      else
        (.ok { field_name := field_name, extracted_value := some doctor_name,
               verification_type := .doctor, status := .error,
               error_message := some ("API error: " ++ toString code),
               timestamp := env.now, api_response_time := env.elapsedMs }, 1)

/-- State after a full `verify_doctor` call: the returned result, the cache
afterwards, and the number of HTTP requests the call issued. -/
structure DoctorCall where
  result : VerificationResult
  cache : List (String × Details)
  netCalls : Nat
deriving Repr

/-- The result built by `verify_doctor`'s `except` clauses: the
`asyncio.TimeoutError` handler yields `"API timeout"`, the generic `Exception`
handler yields `str(e)`. -/
def exceptResult (env : VerifierEnv) (field_name : String)
    (fallback : Option String) (e : PyExn) : VerificationResult :=
  { field_name := field_name, extracted_value := fallback,
    verification_type := .doctor, status := .error,
    error_message := some (if isAsyncioTimeout e then "API timeout" else pyStr e),
    timestamp := env.now, api_response_time := env.elapsedMs }

/-- The NOT_FOUND result of `verify_doctor`'s final fallback when no
identifier combination is usable. -/
def noIdentifiersResult (env : VerifierEnv) (field_name : String)
    (fallback : Option String) : VerificationResult :=
  { field_name := field_name, extracted_value := fallback,
    verification_type := .doctor, status := .not_found,
    error_message := some
      "No verifiable identifiers provided (need NPI, or name+state, or license+state)",
    timestamp := env.now, api_response_time := env.elapsedMs }

/-- The tail of `verify_doctor` after the NPI and license steps: the
name-and-state fallback (whose result is returned whatever its status) or,
failing its guard, the no-identifiers NOT_FOUND.  `c` is the cache reaching
this point and `acc` the HTTP requests accumulated so far. -/
def verify_doctor_name_stage (env : VerifierEnv) (field_name : String)
    (doctor_name state : Option String) (fb : Option String)
    (c : List (String × Details)) (acc : Nat) : DoctorCall :=
  if truthy doctor_name && truthy state then
    match verify_by_name_and_state env field_name
            (doctor_name.getD "") (state.getD "") with
    | (.error e, n3) =>
        { result := exceptResult env field_name fb e, cache := c, netCalls := acc + n3 }
    | (.ok r, n3) =>
        { result := r, cache := c, netCalls := acc + n3 }
  else
    { result := noIdentifiersResult env field_name fb, cache := c, netCalls := acc }

/-- The tail of `verify_doctor` after the NPI step: the state-license step
(attempted only when a license number, a state, and a configured endpoint
are all present, and returned only when VERIFIED), then the name stage. -/
def verify_doctor_license_stage (v : DoctorCredentialVerifier) (env : VerifierEnv)
    (field_name : String) (doctor_name license_number state : Option String)
    (fb : Option String) (c : List (String × Details)) (acc : Nat) : DoctorCall :=
  if truthy license_number && truthy state && truthy v.state_license_api_endpoint then
    match verify_by_state_license v env field_name
            (license_number.getD "") (state.getD "") with
    | (.error e, n2) =>
        { result := exceptResult env field_name fb e, cache := c, netCalls := acc + n2 }
    | (.ok r, n2) =>
        if r.status == .verified then
          { result := r, cache := c, netCalls := acc + n2 }
        else
          verify_doctor_name_stage env field_name doctor_name state fb c (acc + n2)
  else
    verify_doctor_name_stage env field_name doctor_name state fb c acc

/-- `DoctorCredentialVerifier.verify_doctor`: the ordered fallback chain over
the three strategies, the no-identifier fallback, and the exception handlers
(`asyncio.TimeoutError` to `"API timeout"`, any other exception to `str(e)`). -/
def verify_doctor (v : DoctorCredentialVerifier) (env : VerifierEnv)
    (field_name : String)
    (doctor_name npi_number license_number state : Option String) : DoctorCall :=
  let fb := pyOr doctor_name (pyOr npi_number license_number)
  if truthy npi_number then
    match verify_by_npi v env field_name (npi_number.getD "") with
    | (.error e, c, n) =>
        { result := exceptResult env field_name fb e, cache := c, netCalls := n }
    | (.ok r, c, n) =>
        if r.status == .verified then
          { result := r, cache := c, netCalls := n }
        else
          verify_doctor_license_stage v env field_name
            doctor_name license_number state fb c n
  else
    verify_doctor_license_stage v env field_name
      doctor_name license_number state fb v.cache 0

/-- One item of `comparison_result.items` as read by `_verify_doctor_fields`
(`Field`, `Extracted`, `Confidence` attributes; `Extracted` is an opaque
scalar stringified before use). -/
structure ComparisonItem where
  Field : Option String := none
  Extracted : Option String := none
  Confidence : Option String := none
deriving DecidableEq, Repr

/-- Python substring containment `need in hay`. -/
def containsSub (hay need : String) : Bool :=
  (List.range (hay.toList.length + 1)).any
    (fun i => need.toList.isPrefixOf (hay.toList.drop i))

/-- Python `s.rstrip(percent-sign)`: drop all trailing percent signs. -/
def rstripPercent (s : String) : String :=
  String.mk ((s.toList.reverse.dropWhile (· == '%')).reverse)

/-- Value of an unsigned decimal digit run. -/
def digitsToNat (l : List Char) : Nat :=
  l.foldl (fun a c => a * 10 + (c.toNat - 48)) 0

/-- Python `float(s)` on the plain decimal strings that confidence fields
carry: optional surrounding whitespace, optional sign, digits with an
optional fractional part.  Anything else raises `ValueError`, modelled as
`none`. -/
def parsePyFloat (s : String) : Option ℚ :=
  let t := (pyStrip s).toList
  let signed : ℚ × List Char :=
    match t with
    | '-' :: rest => (-1, rest)
    | '+' :: rest => (1, rest)
    | _ => (1, t)
  let intPart := signed.2.takeWhile Char.isDigit
  let rest := signed.2.dropWhile Char.isDigit
  match rest with
  | [] =>
      if intPart.isEmpty then none
      else some (signed.1 * (digitsToNat intPart : ℚ))
  | '.' :: frac =>
      if frac.all Char.isDigit && !(intPart.isEmpty && frac.isEmpty) then
        some (signed.1 *
          ((digitsToNat intPart : ℚ) + (digitsToNat frac : ℚ) / (10 ^ frac.length)))
      else none
  | _ => none

/-- The orchestrator's confidence computation:
`float(item.Confidence.rstrip(percent)) / 100 if item.Confidence else 0.0`
inside a `try`/`except` that yields `0.0` on any parse failure. -/
def itemConfidence (conf : Option String) : ℚ :=
  if truthy conf then
    match parsePyFloat (rstripPercent (conf.getD "")) with
    | some q => q / 100
    | none => 0
  else 0

/-- Round-half-even (Python `round`) to an integer. -/
def roundHalfEven (q : ℚ) : ℤ :=
  let f := ⌊q⌋
  let frac := q - f
  if frac < 1 / 2 then f
  else if 1 / 2 < frac then f + 1
  else if f % 2 = 0 then f else f + 1

/-- Two-digit zero-padded rendering of a Nat below 100. -/
def twoDigits (k : Nat) : String :=
  if k < 10 then "0" ++ toString k else toString k

/-- Python `f"{q:.2%}"`: the value as a percentage with exactly two decimal
places and a trailing percent sign. -/
def formatPercent2 (q : ℚ) : String :=
  let n := roundHalfEven (q * 10000)
  if n < 0 then
    "-" ++ toString ((-n).toNat / 100) ++ "." ++ twoDigits ((-n).toNat % 100) ++ "%"
  else
    toString (n.toNat / 100) ++ "." ++ twoDigits (n.toNat % 100) ++ "%"

/-- The low-confidence skip message
`f"Confidence {confidence_value:.2%} below threshold {self.confidence_threshold:.2%}"`. -/
def confidenceSkipMsg (c t : ℚ) : String :=
  "Confidence " ++ formatPercent2 c ++ " below threshold " ++ formatPercent2 t

/-- Orchestrator configuration: the confidence threshold
(`app_verify_confidence_threshold`, default 0.70) and the schema's doctor
`field_patterns`. -/
structure VerifyConfig where
  confidence_threshold : ℚ := 0.70
  field_patterns : List String := ["physician", "doctor", "npi", "license"]

/-- `item.Field.lower() if item.Field else ""`. -/
def lowerFieldName (item : ComparisonItem) : String :=
  if truthy item.Field then pyLower (item.Field.getD "") else ""

/-- Whether the item's lower-cased name contains any configured pattern. -/
def matchesDoctorPattern (cfg : VerifyConfig) (item : ComparisonItem) : Bool :=
  cfg.field_patterns.any (fun p => containsSub (lowerFieldName item) (pyLower p))

/-- The SKIPPED result emitted for a field below the confidence threshold. -/
def thresholdSkipResult (env : VerifierEnv) (cfg : VerifyConfig)
    (item : ComparisonItem) : VerificationResult :=
  { field_name := item.Field.getD "", extracted_value := item.Extracted,
    verification_type := .doctor, status := .skipped,
    error_message := some
      (confidenceSkipMsg (itemConfidence item.Confidence) cfg.confidence_threshold),
    timestamp := env.now, api_response_time := 0 }

/-- The SKIPPED result emitted for a `license` field with no state code. -/
def licenseSkipResult (env : VerifierEnv) (item : ComparisonItem) : VerificationResult :=
  { field_name := item.Field.getD "", extracted_value := item.Extracted,
    verification_type := .doctor, status := .skipped,
    error_message := some "State license verification requires state code",
    timestamp := env.now, api_response_time := 0 }

/-- Loop state of `_verify_doctor_fields`: the results dict, the verifier's
cache (mutated across iterations via `self.doctor_verifier`), the number of
`verify_doctor` invocations, and the number of HTTP requests issued. -/
structure FieldRunState where
  results : List (Option String × VerificationResult) := []
  cache : List (String × Details) := []
  verifierCalls : Nat := 0
  netCalls : Nat := 0
deriving Repr

/-- One iteration of the `for item in ...comparison_result.items` loop of
`_verify_doctor_fields`. -/
def verify_doctor_field_step (cfg : VerifyConfig) (env : VerifierEnv)
    (v0 : DoctorCredentialVerifier) (st : FieldRunState)
    (item : ComparisonItem) : FieldRunState :=
  if ¬ matchesDoctorPattern cfg item then st
  else
    let c := itemConfidence item.Confidence
    if c < cfg.confidence_threshold then
      { st with results := dictInsert st.results item.Field (thresholdSkipResult env cfg item) }
    else if containsSub (lowerFieldName item) "npi" then
      let call := verify_doctor { v0 with cache := st.cache } env (item.Field.getD "")
        none (if truthy item.Extracted then item.Extracted else none) none none
      { results := dictInsert st.results item.Field call.result,
        cache := call.cache,
        verifierCalls := st.verifierCalls + 1,
        netCalls := st.netCalls + call.netCalls }
    else if containsSub (lowerFieldName item) "license" then
      { st with results := dictInsert st.results item.Field (licenseSkipResult env item) }
    else st

/-- `VerifyHandler._verify_doctor_fields`: fold of the per-item step over the
comparison items, starting from the verifier's current cache. -/
def verify_doctor_fields (cfg : VerifyConfig) (env : VerifierEnv)
    (v0 : DoctorCredentialVerifier) (items : List ComparisonItem) : FieldRunState :=
  items.foldl (verify_doctor_field_step cfg env v0)
    { results := [], cache := v0.cache, verifierCalls := 0, netCalls := 0 }

/-- Number of results in the dict carrying the given status. -/
def countStatus (results : List (Option String × VerificationResult))
    (s : VerificationStatus) : Nat :=
  (results.filter (fun p => p.2.status == s)).length

/-- `VerifyHandler._create_verification_metadata`. -/
def create_verification_metadata (now : String)
    (results : List (Option String × VerificationResult)) : VerificationMetadata :=
  { total_fields_checked := results.length
  , verified_count := countStatus results .verified
  , not_found_count := countStatus results .not_found
  , invalid_count := countStatus results .invalid
  , expired_count := countStatus results .expired
  , revoked_count := countStatus results .revoked
  , error_count := countStatus results .error
  , skipped_count := countStatus results .skipped
  , total_api_calls := results.length
  , total_api_time := (results.map (fun p => p.2.api_response_time)).sum
  , verification_timestamp := now
  , verifications_by_type :=
      [("doctor",
        [("verified", countStatus results .verified),
         ("not_found", countStatus results .not_found),
         ("error", countStatus results .error),
         ("skipped", countStatus results .skipped)])] }

/-- Round-half-even to three decimal places, the rounding the confidence
algorithm applies to every resulting confidence number. -/
def round3 (q : ℚ) : ℚ :=
  (roundHalfEven (q * 1000) : ℚ) / 1000

/-- Modelled from the spec: a nested confidence-tagged extraction structure
as consumed by `merge_confidence_values` of
`libs/pipeline/handlers/logics/evaluate_handler/confidence.py`, whose
implementation is not shipped here (only its tests are).  A leaf is a
`{confidence, value}` mapping; interior nodes are mappings or sequences. -/
inductive ConfTree
  | leaf (confidence : Option ℚ) (value : String)
  | node (fields : List (String × ConfTree))
  | seq (items : List ConfTree)

/-- Modelled from the spec: the per-leaf merge rule of
`merge_confidence_values` — the pointwise minimum when both scores are
present and non-null, the present score when exactly one is null, and null
when both are absent (such a leaf becomes a zero-confidence field). -/
def mergeLeafConfidence : Option ℚ → Option ℚ → Option ℚ
  | some x, some y => some (min x y)
  | some x, none => some x
  | none, some y => some y
  | none, none => none

/-- Modelled from the spec: rounding applied to a merged leaf score. -/
def roundOptConfidence : Option ℚ → Option ℚ
  | some x => some (round3 x)
  | none => none

mutual

/-- Modelled from the spec: the structural zip of two same-shaped confidence
trees; the non-confidence `value` is preserved from the first source.
Mismatched shapes are a caller contract violation (unspecified in the base
design); this model keeps the first tree's remainder. -/
def mergeTrees : ConfTree → ConfTree → ConfTree
  | .leaf ca va, .leaf cb _vb => .leaf (roundOptConfidence (mergeLeafConfidence ca cb)) va
  | .node fa, .node fb => .node (mergeFields fa fb)
  | .seq la, .seq lb => .seq (mergeSeq la lb)
  | ta, _ => ta

/-- Modelled from the spec: merge mapping entries key-by-key. -/
def mergeFields : List (String × ConfTree) → List (String × ConfTree) →
    List (String × ConfTree)
  | [], _ => []
  | (k, ta) :: rest, fb =>
      (k, match fb.lookup k with
          | some tb => mergeTrees ta tb
          | none => ta) :: mergeFields rest fb

/-- Modelled from the spec: merge sequences element-by-position. -/
def mergeSeq : List ConfTree → List ConfTree → List ConfTree
  | [], _ => []
  | _ :: _, [] => []
  | a :: as_, b :: bs => mergeTrees a b :: mergeSeq as_ bs

end

/-- Dot-joined mapping path (`"nested.field2"`), empty prefix at the root. -/
def joinPath (pre k : String) : String :=
  if pre == "" then k else pre ++ "." ++ k

/-- Bracket-indexed sequence path (`"items[1]"`). -/
def indexPath (pre : String) (i : Nat) : String :=
  pre ++ "[" ++ toString i ++ "]"

mutual

/-- Every leaf of a confidence tree with its path and (possibly null) score. -/
def collectLeaves : ConfTree → String → List (String × Option ℚ)
  | .leaf c _, p => [(p, c)]
  | .node fs, p => collectFieldLeaves fs p
  | .seq ls, p => collectSeqLeaves ls p 0

/-- Leaves of a mapping's entries. -/
def collectFieldLeaves : List (String × ConfTree) → String → List (String × Option ℚ)
  | [], _ => []
  | (k, t) :: rest, p => collectLeaves t (joinPath p k) ++ collectFieldLeaves rest p

/-- Leaves of a sequence's items. -/
def collectSeqLeaves : List ConfTree → String → Nat → List (String × Option ℚ)
  | [], _, _ => []
  | t :: rest, p, i => collectLeaves t (indexPath p i) ++ collectSeqLeaves rest p (i + 1)

end

/-- Modelled from the spec: whether a merged leaf is a zero-confidence field
(score exactly 0, or missing/null). -/
def isZeroLeaf : Option ℚ → Bool
  | none => true
  | some q => q == 0

/-- Modelled from the spec: the `MergedConfidenceSummary` produced by
`merge_confidence_values` alongside the merged tree. -/
structure MergedConfidenceSummary where
  merged : ConfTree
  overall_confidence : ℚ
  total_evaluated_fields_count : Nat
  zero_confidence_fields : List String
  zero_confidence_fields_count : Nat
  min_extracted_field_confidence : ℚ
  min_confidence_paths : List String

/-- Modelled from the spec: `merge_confidence_values` — merge two same-shaped
confidence trees, then compute the aggregate statistics over the merged
leaves: the mean of all non-zero, non-excluded leaf scores rounded to three
places (0.0 when no such leaf exists), the count of those leaves, the
zero-confidence field paths, and the minimum score with its path(s). -/
def merge_confidence_values (a b : ConfTree) : MergedConfidenceSummary :=
  let merged := mergeTrees a b
  let leaves := collectLeaves merged ""
  let zeroes := (leaves.filter (fun l => isZeroLeaf l.2)).map (fun l => l.1)
  let counted := leaves.filterMap
    (fun l => match l.2 with
      | some q => if q == 0 then none else some (l.1, q)
      | none => none)
  let vals := counted.map (fun l => l.2)
  let overall := if vals.length = 0 then 0 else round3 (vals.sum / vals.length)
  let minv := match vals with
    | [] => 0
    | x :: rest => rest.foldl min x
  { merged := merged
  , overall_confidence := overall
  , total_evaluated_fields_count := counted.length
  , zero_confidence_fields := zeroes
  , zero_confidence_fields_count := zeroes.length
  , min_extracted_field_confidence := minv
  , min_confidence_paths := (counted.filter (fun l => l.2 == minv)).map (fun l => l.1) }

/-! ## Concrete fixtures used by counterexamples and witnesses -/

/-- An environment whose endpoints answer 404 with empty bodies; the
verification outcome of every request through it is driven purely by the
verifier's own control flow. -/
def stubEnv : VerifierEnv :=
  { npiLookup := fun _ => .ok 404 {},
    nameLookup := fun _ _ _ => .ok 404 {},
    licenseLookup := fun _ _ => .ok 404 [] }

/-- A registry response with a single active provider record. -/
def activeResp : NpiResponse :=
  { result_count := 1,
    results := [{ number := some "1234567890",
                  basic := { first_name := some "Jane", last_name := some "Doe",
                             status := some "A", credential := some "MD" } }] }

/-- An environment whose NPI-number endpoint reports the active provider of
`activeResp` for every queried number. -/
def activeNpiEnv : VerifierEnv :=
  { stubEnv with npiLookup := fun _ => .ok 200 activeResp }

/-! ## Status / error-message helper lemmas -/

/-- The success statuses of the taxonomy: found and currently valid or
found with a definite expiry/revocation record. -/
def isSuccessStatus (s : VerificationStatus) : Prop :=
  s = .verified ∨ s = .expired ∨ s = .revoked

theorem verify_by_npi_ok_no_msg (v : DoctorCredentialVerifier) (env : VerifierEnv)
    (fn np : String) (r : VerificationResult) (c : List (String × Details)) (n : Nat)
    (h : verify_by_npi v env fn np = (.ok r, c, n)) : r.error_message = none := by
  cases hc : v.cache.lookup np with
  | some cached =>
      simp only [verify_by_npi, hc, Prod.mk.injEq, Except.ok.injEq] at h
      obtain ⟨rfl, -, -⟩ := h
      rfl
  | none =>
      cases he : env.npiLookup np with
      | exn e => simp [verify_by_npi, hc, he] at h
      | ok code data =>
        cases h200 : (code == 200 && data.result_count != 0) with
        | false =>
            simp only [verify_by_npi, hc, he, h200, if_false, Bool.false_eq_true,
              Prod.mk.injEq, Except.ok.injEq] at h
            obtain ⟨rfl, -, -⟩ := h
            rfl
        | true =>
            cases hres : data.results with
            | nil => simp [verify_by_npi, hc, he, h200, hres] at h
            | cons r0 tl =>
              cases hA : ((r0.basic.status.getD "") != "A") with
              | true =>
                  simp only [verify_by_npi, hc, he, h200, hres, hA, if_true,
                    Prod.mk.injEq, Except.ok.injEq] at h
                  obtain ⟨rfl, -, -⟩ := h
                  rfl
              | false =>
                  simp only [verify_by_npi, hc, he, h200, hres, hA, if_false,
                    Bool.false_eq_true, Prod.mk.injEq, Except.ok.injEq] at h
                  obtain ⟨rfl, -, -⟩ := h
                  rfl

theorem verify_by_state_license_ok_no_msg (v : DoctorCredentialVerifier)
    (env : VerifierEnv) (fn ln st : String) (r : VerificationResult) (n : Nat)
    (h : verify_by_state_license v env fn ln st = (.ok r, n))
    (hs : isSuccessStatus r.status) : r.error_message = none := by
  cases hcfg : (!(truthy v.state_license_api_endpoint) || !(truthy v.api_key)) with
  | true =>
      simp only [verify_by_state_license, hcfg, if_true, Prod.mk.injEq,
        Except.ok.injEq] at h
      obtain ⟨rfl, -⟩ := h
      simp [isSuccessStatus] at hs
  | false =>
      cases he : env.licenseLookup ln st with
      | exn e => simp [verify_by_state_license, hcfg, he] at h
      | ok code data =>
        cases h200 : (code == 200) with
        | false =>
            simp only [verify_by_state_license, hcfg, he, h200, if_false,
              Bool.false_eq_true, Prod.mk.injEq, Except.ok.injEq] at h
            obtain ⟨rfl, -⟩ := h
            simp [isSuccessStatus] at hs
        | true =>
            cases hac : (licenseStatusOf data == "active") with
            | true =>
                simp only [verify_by_state_license, hcfg, he, h200, hac, if_true,
                  Bool.false_eq_true, Prod.mk.injEq, Except.ok.injEq] at h
                obtain ⟨rfl, -⟩ := h
                rfl
            | false =>
              cases hex : (licenseStatusOf data == "expired") with
              | true =>
                  simp only [verify_by_state_license, hcfg, he, h200, hac, hex,
                    if_true, if_false, Bool.false_eq_true, Prod.mk.injEq,
                    Except.ok.injEq] at h
                  obtain ⟨rfl, -⟩ := h
                  rfl
              | false =>
                cases hrv : (licenseStatusOf data == "revoked"
                    || licenseStatusOf data == "suspended") with
                | true =>
                    simp only [verify_by_state_license, hcfg, he, h200, hac, hex,
                      hrv, if_true, if_false, Bool.false_eq_true, Prod.mk.injEq,
                      Except.ok.injEq] at h
                    obtain ⟨rfl, -⟩ := h
                    rfl
                | false =>
                    simp only [verify_by_state_license, hcfg, he, h200, hac, hex,
                      hrv, if_true, if_false, Bool.false_eq_true, Prod.mk.injEq,
                      Except.ok.injEq] at h
                    obtain ⟨rfl, -⟩ := h
                    simp [isSuccessStatus] at hs

theorem verify_by_name_ok_no_msg (env : VerifierEnv)
    (fn dn st : String) (r : VerificationResult) (n : Nat)
    (h : verify_by_name_and_state env fn dn st = (.ok r, n))
    (hs : isSuccessStatus r.status) : r.error_message = none := by
  by_cases hp : (parseNameParts dn).length < 2
  · simp only [verify_by_name_and_state, if_pos hp, Prod.mk.injEq,
      Except.ok.injEq] at h
    obtain ⟨rfl, -⟩ := h
    simp [isSuccessStatus] at hs
  · cases he : env.nameLookup (nameFirst dn) (nameLast dn) st with
    | exn e => simp [verify_by_name_and_state, if_neg hp, he] at h
    | ok code data =>
      cases h200 : (code == 200) with
      | false =>
          simp only [verify_by_name_and_state, if_neg hp, he, h200, if_false,
            Bool.false_eq_true, Prod.mk.injEq, Except.ok.injEq] at h
          obtain ⟨rfl, -⟩ := h
          simp [isSuccessStatus] at hs
      | true =>
        cases hz : (data.result_count == 0) with
        | true =>
            simp only [verify_by_name_and_state, if_neg hp, he, h200, hz, if_true,
              Prod.mk.injEq, Except.ok.injEq] at h
            obtain ⟨rfl, -⟩ := h
            simp [isSuccessStatus] at hs
        | false =>
          rcases hms : nameMatchesOf dn data.results with
            _ | ⟨r0, _ | ⟨r1, tl⟩⟩
          · simp only [verify_by_name_and_state, if_neg hp, he, h200, hz, hms,
              if_false, Bool.false_eq_true, Prod.mk.injEq, Except.ok.injEq] at h
            obtain ⟨rfl, -⟩ := h
            simp [isSuccessStatus] at hs
          · simp only [verify_by_name_and_state, if_neg hp, he, h200, hz, hms,
              if_false, Bool.false_eq_true, Prod.mk.injEq, Except.ok.injEq] at h
            obtain ⟨rfl, -⟩ := h
            rfl
          · simp only [verify_by_name_and_state, if_neg hp, he, h200, hz, hms,
              if_false, Bool.false_eq_true, Prod.mk.injEq, Except.ok.injEq] at h
            obtain ⟨rfl, -⟩ := h
            simp [isSuccessStatus] at hs

theorem name_stage_no_msg (env : VerifierEnv) (fn : String)
    (dn st fb : Option String) (c : List (String × Details)) (acc : Nat)
    (hs : isSuccessStatus (verify_doctor_name_stage env fn dn st fb c acc).result.status) :
    (verify_doctor_name_stage env fn dn st fb c acc).result.error_message = none := by
  cases hg : (truthy dn && truthy st) with
  | false =>
      simp only [verify_doctor_name_stage, hg, Bool.false_eq_true, if_false] at hs
      simp [noIdentifiersResult, isSuccessStatus] at hs
  | true =>
      rcases hv : verify_by_name_and_state env fn (dn.getD "") (st.getD "") with ⟨out, n3⟩
      cases out with
      | error e =>
          simp only [verify_doctor_name_stage, hg, hv, if_true] at hs
          simp [exceptResult, isSuccessStatus] at hs
      | ok r =>
          simp only [verify_doctor_name_stage, hg, hv, if_true] at hs ⊢
          exact verify_by_name_ok_no_msg env fn (dn.getD "") (st.getD "") r n3 hv hs

theorem license_stage_no_msg (v : DoctorCredentialVerifier) (env : VerifierEnv)
    (fn : String) (dn ln st fb : Option String) (c : List (String × Details)) (acc : Nat)
    (hs : isSuccessStatus
      (verify_doctor_license_stage v env fn dn ln st fb c acc).result.status) :
    (verify_doctor_license_stage v env fn dn ln st fb c acc).result.error_message
      = none := by
  cases hg : (truthy ln && truthy st && truthy v.state_license_api_endpoint) with
  | false =>
      simp only [verify_doctor_license_stage, hg, Bool.false_eq_true, if_false] at hs ⊢
      exact name_stage_no_msg env fn dn st fb c acc hs
  | true =>
      rcases hv : verify_by_state_license v env fn (ln.getD "") (st.getD "") with ⟨out, n2⟩
      cases out with
      | error e =>
          simp only [verify_doctor_license_stage, hg, hv, if_true] at hs
          simp [exceptResult, isSuccessStatus] at hs
      | ok r =>
          cases hst : (r.status == VerificationStatus.verified) with
          | true =>
              simp only [verify_doctor_license_stage, hg, hv, hst, if_true] at hs ⊢
              exact verify_by_state_license_ok_no_msg v env fn (ln.getD "") (st.getD "")
                r n2 hv hs
          | false =>
              simp only [verify_doctor_license_stage, hg, hv, hst, if_true, if_false,
                Bool.false_eq_true] at hs ⊢
              exact name_stage_no_msg env fn dn st fb c (acc + n2) hs

/-! ## Claim C1 -/

/-- C1 counterexample: a single field that matches the doctor patterns but
falls below the confidence threshold produces one SKIPPED outcome and
triggers no verifier invocation and no HTTP request, yet the metadata
builder reports `total_api_calls = 1` — not the `0` lookups the claim
requires it to count. -/
theorem C1_counterexample :
    (verify_doctor_fields {} stubEnv {}
      [{ Field := some "physician_npi", Extracted := some "1234567890",
         Confidence := some "50.00%" }]).verifierCalls = 0 ∧
    (verify_doctor_fields {} stubEnv {}
      [{ Field := some "physician_npi", Extracted := some "1234567890",
         Confidence := some "50.00%" }]).netCalls = 0 ∧
    ((verify_doctor_fields {} stubEnv {}
      [{ Field := some "physician_npi", Extracted := some "1234567890",
         Confidence := some "50.00%" }]).results.map (fun p => p.2.status))
      = [.skipped] ∧
    (create_verification_metadata ""
      (verify_doctor_fields {} stubEnv {}
        [{ Field := some "physician_npi", Extracted := some "1234567890",
           Confidence := some "50.00%" }]).results).total_api_calls = 1 := by
  with_unfolding_all decide

/-- C1 (amended): `total_api_calls` produced by the metadata builder equals
the total number of outcomes in the results map (`total_fields_checked`),
counting every outcome — including SKIPPED outcomes that triggered no
lookup — rather than only those that triggered a network lookup. -/
theorem C1_total_api_calls_counts_all_outcomes (now : String)
    (results : List (Option String × VerificationResult)) :
    (create_verification_metadata now results).total_api_calls = results.length ∧
    (create_verification_metadata now results).total_api_calls
      = (create_verification_metadata now results).total_fields_checked :=
  ⟨rfl, rfl⟩

/-! ## Claim C2 -/

/-- C2 counterexample: `verify_doctor` with no usable identifiers returns a
NOT_FOUND result that does carry an `error_message`, contradicting the claim
that only ERROR results are ever populated with one. -/
theorem C2_counterexample :
    (verify_doctor {} stubEnv "doctor_field" none none none none).result.status
      = .not_found ∧
    (verify_doctor {} stubEnv "doctor_field" none none none none).result.error_message
      ≠ none := by
  decide

/-- C2 (amended): `error_message` can accompany ERROR, NOT_FOUND, INVALID
and SKIPPED outcomes (diagnostic messages), but every result `verify_doctor`
returns with status VERIFIED, EXPIRED or REVOKED — and every strategy-level
success result — carries no `error_message`. -/
theorem C2_success_results_have_no_error_message :
    (∀ (v : DoctorCredentialVerifier) (env : VerifierEnv) (fn : String)
       (dn np lic st : Option String),
       isSuccessStatus (verify_doctor v env fn dn np lic st).result.status →
       (verify_doctor v env fn dn np lic st).result.error_message = none) ∧
    (∀ (v : DoctorCredentialVerifier) (env : VerifierEnv) (fn ln st : String)
       (r : VerificationResult) (n : Nat),
       verify_by_state_license v env fn ln st = (.ok r, n) →
       isSuccessStatus r.status → r.error_message = none) ∧
    (∀ (env : VerifierEnv) (fn dn st : String) (r : VerificationResult) (n : Nat),
       verify_by_name_and_state env fn dn st = (.ok r, n) →
       isSuccessStatus r.status → r.error_message = none) := by
  refine ⟨?_, verify_by_state_license_ok_no_msg, verify_by_name_ok_no_msg⟩
  intro v env fn dn np lic st hs
  cases hg : truthy np with
  | false =>
      simp only [verify_doctor, hg, Bool.false_eq_true, if_false] at hs ⊢
      exact license_stage_no_msg v env fn dn lic st _ v.cache 0 hs
  | true =>
      rcases hv : verify_by_npi v env fn (np.getD "") with ⟨out, c, n⟩
      cases out with
      | error e =>
          simp only [verify_doctor, hg, hv, if_true] at hs
          simp [exceptResult, isSuccessStatus] at hs
      | ok r =>
          cases hst : (r.status == VerificationStatus.verified) with
          | true =>
              simp only [verify_doctor, hg, hv, hst, if_true] at hs ⊢
              exact verify_by_npi_ok_no_msg v env fn (np.getD "") r c n hv
          | false =>
              simp only [verify_doctor, hg, hv, hst, if_true, if_false,
                Bool.false_eq_true] at hs ⊢
              exact license_stage_no_msg v env fn dn lic st _ c n hs

/-- C2 witness: a concrete cache-hit call comes back VERIFIED, and the
amended theorem yields that it carries no error message. -/
theorem C2_witness :
    (verify_doctor { cache := [("1234567890", detailsOfNpiRecord
        { number := some "1234567890",
          basic := { first_name := some "Jane", last_name := some "Doe",
                     status := some "A", credential := some "MD" } })] }
      stubEnv "f" none (some "1234567890") none none).result.error_message = none :=
  C2_success_results_have_no_error_message.1 _ stubEnv "f" none (some "1234567890")
    none none (Or.inl (by decide))

/-! ## Claim C4 -/

/-- An environment whose NPI endpoint times out at the HTTP client layer:
`httpx` raises an `httpx.TimeoutException` (here with text `"timed out"`),
which is not an `asyncio.TimeoutError`. -/
def httpxTimeoutEnv : VerifierEnv :=
  { stubEnv with npiLookup := fun _ => .exn (.httpxTimeoutErr "timed out") }

/-- An environment whose NPI endpoint raises `asyncio.TimeoutError` itself —
the only exception the dedicated timeout handler actually catches. -/
def asyncioTimeoutEnv : VerifierEnv :=
  { stubEnv with npiLookup := fun _ => .exn .asyncioTimeoutErr }

/-- C4: the code means to translate request timeouts into ERROR with message
`"API timeout"` (its dedicated `except asyncio.TimeoutError` handler does
exactly that), but the HTTP client layer raises `httpx.TimeoutException`,
which is not a subclass of `asyncio.TimeoutError`; the generic handler
therefore produces ERROR with `str(e)` instead of `"API timeout"`.  The
dedicated handler is dead code for real HTTP timeouts. -/
theorem C4_timeout_message_bug :
    (verify_doctor {} httpxTimeoutEnv "physician_npi"
      none (some "1234567890") none none).result.status = .error ∧
    (verify_doctor {} httpxTimeoutEnv "physician_npi"
      none (some "1234567890") none none).result.error_message = some "timed out" ∧
    (verify_doctor {} httpxTimeoutEnv "physician_npi"
      none (some "1234567890") none none).result.error_message ≠ some "API timeout" ∧
    (verify_doctor {} asyncioTimeoutEnv "physician_npi"
      none (some "1234567890") none none).result.error_message = some "API timeout" := by
  with_unfolding_all decide

/-! ## Claim C5 -/

/-- C5 counterexample: with a license number and a state but no configured
license-registry endpoint, `verify_doctor` never enters the license step (its
guard requires the endpoint), falls through, and returns NOT_FOUND — not the
SKIPPED the claim requires. -/
theorem C5_counterexample :
    (verify_doctor {} stubEnv "physician_license"
      none none (some "G12345") (some "CA")).result.status = .not_found ∧
    (verify_doctor {} stubEnv "physician_license"
      none none (some "G12345") (some "CA")).result.status ≠ .skipped := by
  with_unfolding_all decide

/-- C5 (amended): the SKIPPED-with-explanation outcome exists only inside the
state-license strategy: when the endpoint is configured but the access
credential is not, `_verify_by_state_license` returns SKIPPED with message
`"State license API not configured"` (and issues no request).  `verify_doctor`
itself, however, only propagates VERIFIED results from that step, and with an
unconfigured endpoint does not attempt the step at all: a request carrying
only license+state then ends in the NOT_FOUND fallback. -/
theorem C5_license_skip_is_internal :
    (∀ (v : DoctorCredentialVerifier) (env : VerifierEnv) (fn ln st : String),
      truthy v.state_license_api_endpoint = true →
      truthy v.api_key = false →
      verify_by_state_license v env fn ln st =
        (.ok { field_name := fn, extracted_value := some ln,
               verification_type := .doctor, status := .skipped,
               error_message := some "State license API not configured",
               timestamp := env.now, api_response_time := env.elapsedMs }, 0)) ∧
    (∀ (v : DoctorCredentialVerifier) (env : VerifierEnv) (fn ln st : String),
      v.state_license_api_endpoint = none →
      (verify_doctor v env fn none none (some ln) (some st)).result.status
        = .not_found) := by
  constructor
  · intro v env fn ln st h1 h2
    simp [verify_by_state_license, h1, h2]
  · intro v env fn ln st hep
    simp [verify_doctor, verify_doctor_license_stage, verify_doctor_name_stage,
      truthy, hep, noIdentifiersResult]

/-- C5 witness: the amended theorem applied at a verifier with a configured
endpoint but no credential (license step SKIPPED internally), and at one with
no endpoint (whole request falls through to NOT_FOUND). -/
theorem C5_witness :
    verify_by_state_license
        { state_license_api_endpoint := some "https://boards.example/api" }
        stubEnv "physician_license" "G12345" "CA" =
      (.ok { field_name := "physician_license", extracted_value := some "G12345",
             verification_type := .doctor, status := .skipped,
             error_message := some "State license API not configured",
             timestamp := stubEnv.now, api_response_time := stubEnv.elapsedMs }, 0) ∧
    (verify_doctor {} stubEnv "physician_license"
      none none (some "G12345") (some "CA")).result.status = .not_found :=
  ⟨C5_license_skip_is_internal.1 _ stubEnv "physician_license" "G12345" "CA"
      (by decide) (by decide),
   C5_license_skip_is_internal.2 {} stubEnv "physician_license" "G12345" "CA" rfl⟩

/-! ## Claim C8 -/

/-- C8: in the orchestrator's per-field loop, a field that matches the doctor
patterns but whose parsed confidence is below the configured threshold
produces exactly one SKIPPED outcome whose message states the measured and
the required confidence, and triggers neither a verifier invocation nor any
HTTP request. -/
theorem C8_low_confidence_skipped (cfg : VerifyConfig) (env : VerifierEnv)
    (v0 : DoctorCredentialVerifier) (st : FieldRunState) (item : ComparisonItem)
    (hm : matchesDoctorPattern cfg item = true)
    (hc : itemConfidence item.Confidence < cfg.confidence_threshold) :
    verify_doctor_field_step cfg env v0 st item =
      { st with results :=
          dictInsert st.results item.Field (thresholdSkipResult env cfg item) } ∧
    (thresholdSkipResult env cfg item).status = .skipped ∧
    (thresholdSkipResult env cfg item).error_message =
      some (confidenceSkipMsg (itemConfidence item.Confidence)
        cfg.confidence_threshold) ∧
    (verify_doctor_field_step cfg env v0 st item).verifierCalls = st.verifierCalls ∧
    (verify_doctor_field_step cfg env v0 st item).netCalls = st.netCalls := by
  have h1 : verify_doctor_field_step cfg env v0 st item =
      { st with results :=
          dictInsert st.results item.Field (thresholdSkipResult env cfg item) } := by
    simp [verify_doctor_field_step, hm, if_pos hc]
  refine ⟨h1, rfl, rfl, ?_, ?_⟩ <;> rw [h1]

/-- C8 witness: a `Physician_NPI` field extracted with 65% confidence against
the default 70% threshold is skipped without any lookup. -/
theorem C8_witness :
    verify_doctor_field_step {} stubEnv {} {}
        { Field := some "Physician_NPI", Extracted := some "1234567890",
          Confidence := some "65%" } =
      { results := [(some "Physician_NPI",
          thresholdSkipResult stubEnv {}
            { Field := some "Physician_NPI", Extracted := some "1234567890",
              Confidence := some "65%" })],
        cache := [], verifierCalls := 0, netCalls := 0 } ∧
    (thresholdSkipResult stubEnv {}
      { Field := some "Physician_NPI", Extracted := some "1234567890",
        Confidence := some "65%" }).status = .skipped :=
  ⟨(C8_low_confidence_skipped {} stubEnv {} {} _
      (by decide) (by with_unfolding_all decide)).1,
   (C8_low_confidence_skipped {} stubEnv {} {} _
      (by decide) (by with_unfolding_all decide)).2.1⟩

/-! ## Claims C3 and C7: name-and-state disambiguation -/

theorem collectMatches_aux (first last : String) (l : List NpiRecord) :
    ∀ acc : List NpiRecord × List NpiRecord,
      l.foldl
        (fun acc r =>
          if isExactMatch first last r then
            ((if isActiveRec r then acc.1 ++ [r] else acc.1), acc.2 ++ [r])
          else acc) acc =
      (acc.1 ++ l.filter (fun r => isExactMatch first last r && isActiveRec r),
       acc.2 ++ l.filter (fun r => isExactMatch first last r)) := by
  induction l with
  | nil => intro acc; simp
  | cons r tl ih =>
      intro acc
      cases hx : isExactMatch first last r with
      | false => simp [hx, ih, List.filter_cons]
      | true =>
        cases ha : isActiveRec r with
        | false => simp [hx, ha, ih, List.filter_cons]
        | true => simp [hx, ha, ih, List.filter_cons]

/-- The `for` loop of `_verify_by_name_and_state` collects exactly the
case-insensitive exact-name matches, and among them the active ones. -/
theorem collectMatches_eq_filter (first last : String) (results : List NpiRecord) :
    collectMatches first last results =
      (results.filter (fun r => isExactMatch first last r && isActiveRec r),
       results.filter (fun r => isExactMatch first last r)) := by
  unfold collectMatches
  simpa using collectMatches_aux first last results ([], [])

/-- The preferred subset really is: active exact matches when any exist,
otherwise all exact matches. -/
theorem nameMatchesOf_characterization (dn : String) (results : List NpiRecord) :
    nameMatchesOf dn results =
      (if (results.filter
            (fun r => isExactMatch (nameFirst dn) (nameLast dn) r && isActiveRec r)).isEmpty
       then results.filter (fun r => isExactMatch (nameFirst dn) (nameLast dn) r)
       else results.filter
            (fun r => isExactMatch (nameFirst dn) (nameLast dn) r && isActiveRec r)) := by
  unfold nameMatchesOf
  rw [collectMatches_eq_filter]

/-- An environment whose name search returns the single active provider of
`activeResp` for every query. -/
def nameEnv : VerifierEnv :=
  { stubEnv with nameLookup := fun _ _ _ => .ok 200 activeResp }

/-- C3 counterexample: a name-and-state lookup with exactly one active exact
match verifies, but the `verification_method` entry of its details is the
string `"name_and_state"`, not `"name_and_jurisdiction"` as the claim
states. -/
theorem C3_counterexample :
    (verify_doctor {} nameEnv "physician_name"
      (some "Jane Doe") none none (some "CA")).result.status = .verified ∧
    ((verify_doctor {} nameEnv "physician_name"
      (some "Jane Doe") none none (some "CA")).result.details.getD []).lookup
        "verification_method" = some (.str "name_and_state") ∧
    ((verify_doctor {} nameEnv "physician_name"
      (some "Jane Doe") none none (some "CA")).result.details.getD []).lookup
        "verification_method" ≠ some (.str "name_and_jurisdiction") := by
  with_unfolding_all decide

/-- C3 (amended): whenever the registry's 200 response to a name-and-state
search contains exactly one active exact-name match, the verifier returns
VERIFIED and the details carry `verification_method = "name_and_state"`
(the code's literal; the claim's value `"name_and_jurisdiction"` never
occurs). -/
theorem C3_single_active_match_verified (env : VerifierEnv) (fn dn st : String)
    (resp : NpiResponse) (r : NpiRecord)
    (hp : ¬ (parseNameParts dn).length < 2)
    (hl : env.nameLookup (nameFirst dn) (nameLast dn) st = .ok 200 resp)
    (hc : resp.result_count ≠ 0)
    (ha : resp.results.filter
      (fun q => isExactMatch (nameFirst dn) (nameLast dn) q && isActiveRec q) = [r]) :
    (verify_by_name_and_state env fn dn st).1 =
      .ok { field_name := fn, extracted_value := some dn,
            verification_type := .doctor, status := .verified,
            details := some (detailsOfNameMatch st r),
            timestamp := env.now, api_response_time := env.elapsedMs } ∧
    (detailsOfNameMatch st r).lookup "verification_method"
      = some (.str "name_and_state") := by
  have hms : nameMatchesOf dn resp.results = [r] := by
    rw [nameMatchesOf_characterization, ha]
    simp
  refine ⟨?_, rfl⟩
  simp [verify_by_name_and_state, hp, hl, beq_eq_false_iff_ne.mpr hc, hms]

/-- C3 witness: the amended theorem applied to the concrete single-active
response (its hypotheses checked by evaluation). -/
theorem C3_witness :
    (verify_by_name_and_state nameEnv "physician_name" "Jane Doe" "CA").1 =
      .ok { field_name := "physician_name", extracted_value := some "Jane Doe",
            verification_type := .doctor, status := .verified,
            details := some (detailsOfNameMatch "CA"
              { number := some "1234567890",
                basic := { first_name := some "Jane", last_name := some "Doe",
                           status := some "A", credential := some "MD" } }),
            timestamp := nameEnv.now, api_response_time := nameEnv.elapsedMs } ∧
    (detailsOfNameMatch "CA"
      { number := some "1234567890",
        basic := { first_name := some "Jane", last_name := some "Doe",
                   status := some "A", credential := some "MD" } }).lookup
      "verification_method" = some (.str "name_and_state") :=
  C3_single_active_match_verified nameEnv "physician_name" "Jane Doe" "CA"
    activeResp _ (by decide) rfl (by decide) (by decide)

/-- C7: the disambiguation policy of `_verify_by_name_and_state` on a 200
response with a nonzero result count: the chosen subset prefers active exact
matches and falls back to all exact matches; more than one chosen match gives
INVALID with the match count in details; zero exact matches gives NOT_FOUND
reporting how many similar results the registry returned. -/
theorem C7_name_disambiguation (env : VerifierEnv) (fn dn st : String)
    (resp : NpiResponse)
    (hp : ¬ (parseNameParts dn).length < 2)
    (hl : env.nameLookup (nameFirst dn) (nameLast dn) st = .ok 200 resp)
    (hc : resp.result_count ≠ 0) :
    nameMatchesOf dn resp.results =
      (if (resp.results.filter
            (fun q => isExactMatch (nameFirst dn) (nameLast dn) q && isActiveRec q)).isEmpty
       then resp.results.filter (fun q => isExactMatch (nameFirst dn) (nameLast dn) q)
       else resp.results.filter
            (fun q => isExactMatch (nameFirst dn) (nameLast dn) q && isActiveRec q)) ∧
    (1 < (nameMatchesOf dn resp.results).length →
      (verify_by_name_and_state env fn dn st).1 =
        .ok { field_name := fn, extracted_value := some dn,
              verification_type := .doctor, status := .invalid,
              error_message := some (multipleProvidersMsg dn st),
              details := some [("match_count", .num (nameMatchesOf dn resp.results).length)],
              timestamp := env.now, api_response_time := env.elapsedMs }) ∧
    (resp.results.filter (fun q => isExactMatch (nameFirst dn) (nameLast dn) q) = [] →
      (verify_by_name_and_state env fn dn st).1 =
        .ok { field_name := fn, extracted_value := some dn,
              verification_type := .doctor, status := .not_found,
              error_message := some (similarProvidersMsg resp.result_count st dn),
              timestamp := env.now, api_response_time := env.elapsedMs }) := by
  refine ⟨nameMatchesOf_characterization dn resp.results, ?_, ?_⟩
  · intro hlen
    rcases hms : nameMatchesOf dn resp.results with _ | ⟨a, _ | ⟨b, tl⟩⟩
    · simp [hms] at hlen
    · simp [hms] at hlen
    · simp [verify_by_name_and_state, hp, hl, beq_eq_false_iff_ne.mpr hc, hms]
  · intro hex
    have hact : resp.results.filter
        (fun q => isExactMatch (nameFirst dn) (nameLast dn) q && isActiveRec q) = [] :=
      List.filter_eq_nil_iff.mpr (fun a haa hpq => by
        have := List.filter_eq_nil_iff.mp hex a haa
        simp_all)
    have hms : nameMatchesOf dn resp.results = [] := by
      rw [nameMatchesOf_characterization, hact, hex]
      simp
    simp [verify_by_name_and_state, hp, hl, beq_eq_false_iff_ne.mpr hc, hms]

/-- A registry response with two active providers sharing the same name, and
one whose name search finds them. -/
def twoMatchResp : NpiResponse :=
  { result_count := 2,
    results := [{ number := some "111",
                  basic := { first_name := some "Jane", last_name := some "Doe",
                             status := some "A", credential := some "MD" } },
                { number := some "222",
                  basic := { first_name := some "Jane", last_name := some "Doe",
                             status := some "A", credential := some "DO" } }] }

/-- C7 witness: the disambiguation theorem applied to a concrete two-active
match response, giving INVALID with `match_count = 2`. -/
theorem C7_witness :
    (verify_by_name_and_state
        { stubEnv with nameLookup := fun _ _ _ => .ok 200 twoMatchResp }
        "physician_name" "Jane Doe" "CA").1 =
      .ok { field_name := "physician_name", extracted_value := some "Jane Doe",
            verification_type := .doctor, status := .invalid,
            error_message := some (multipleProvidersMsg "Jane Doe" "CA"),
            details := some [("match_count",
              .num (nameMatchesOf "Jane Doe" twoMatchResp.results).length)],
            timestamp := "", api_response_time := 0 } :=
  (C7_name_disambiguation
    { stubEnv with nameLookup := fun _ _ _ => .ok 200 twoMatchResp }
    "physician_name" "Jane Doe" "CA" twoMatchResp
    (by decide) rfl (by decide)).2.1 (by decide)

/-! ## Claims C6 and C10: the NPI cache -/

theorem dictInsert_lookup {α β : Type} [BEq α] [LawfulBEq α]
    (d : List (α × β)) (k k' : α) (v : β) :
    (dictInsert d k v).lookup k' = if k' == k then some v else d.lookup k' := by
  induction d with
  | nil => cases h : k' == k <;> simp [dictInsert, List.lookup, h]
  | cons p rest ih =>
      obtain ⟨k0, v0⟩ := p
      by_cases h0 : (k0 == k) = true
      · have hk : k0 = k := eq_of_beq h0
        subst hk
        by_cases h1 : (k' == k0) = true
        · simp [dictInsert, List.lookup, h0, h1]
        · simp [dictInsert, List.lookup, h0, h1]
      · by_cases h1 : (k' == k0) = true
        · have hk : k' = k0 := eq_of_beq h1
          subst hk
          have h2 : (k' == k) = false := by
            cases h3 : (k' == k) with
            | false => rfl
            | true => exact absurd h3 h0
          simp [dictInsert, List.lookup, h0, h1, h2]
        · simp [dictInsert, List.lookup, h0, h1, ih]

/-- The truthiness of a non-empty optional string. -/
theorem truthy_some_of_ne (s : String) (h : s ≠ "") : truthy (some s) = true := by
  simp [truthy, beq_eq_false_iff_ne.mpr h]

/-- The VERIFIED result of the uncached active-provider branch of
`_verify_by_npi`. -/
def npiVerifiedResult (env : VerifierEnv) (fn np : String)
    (r : NpiRecord) : VerificationResult :=
  { field_name := fn, extracted_value := some np,
    verification_type := .doctor, status := .verified,
    details := some (detailsOfNpiRecord r),
    timestamp := env.now, api_response_time := env.elapsedMs }

theorem verify_by_npi_active (v : DoctorCredentialVerifier) (env : VerifierEnv)
    (fn np : String) (resp : NpiResponse) (r0 : NpiRecord) (tl : List NpiRecord)
    (hmiss : v.cache.lookup np = none)
    (hl : env.npiLookup np = .ok 200 resp)
    (hcount : resp.result_count ≠ 0)
    (hres : resp.results = r0 :: tl)
    (hact : r0.basic.status = some "A") :
    verify_by_npi v env fn np =
      (.ok (npiVerifiedResult env fn np r0),
       dictInsert v.cache np (detailsOfNpiRecord r0), 1) := by
  have h1 : (200 == 200 && resp.result_count != 0) = true := by simp [hcount]
  have h2 : ((r0.basic.status.getD "") != "A") = false := by simp [hact]
  simp [verify_by_npi, hmiss, hl, h1, hres, h2, npiVerifiedResult, hcount]

theorem verify_by_npi_cache_hit (v : DoctorCredentialVerifier) (env : VerifierEnv)
    (fn np : String) (d : Details)
    (hhit : v.cache.lookup np = some d) :
    verify_by_npi v env fn np =
      (.ok { field_name := fn, extracted_value := some np,
             verification_type := .doctor, status := .verified,
             details := some (dictInsert d "cached" (.bool true)),
             timestamp := env.now, api_response_time := env.elapsedMs },
       v.cache, 0) := by
  simp [verify_by_npi, hhit]

/-- C6: an active registry record for an uncached number verifies with
`details.cached = false`, stores the normalized details in the cache, and an
immediately following second call for the same number verifies from the cache
with `details.cached = true` and issues no HTTP request. -/
theorem C6_npi_cache_roundtrip (v : DoctorCredentialVerifier) (env : VerifierEnv)
    (fn np : String) (resp : NpiResponse) (r0 : NpiRecord) (tl : List NpiRecord)
    (hnp : np ≠ "")
    (hmiss : v.cache.lookup np = none)
    (hl : env.npiLookup np = .ok 200 resp)
    (hcount : resp.result_count ≠ 0)
    (hres : resp.results = r0 :: tl)
    (hact : r0.basic.status = some "A") :
    (verify_doctor v env fn none (some np) none none).result
      = npiVerifiedResult env fn np r0 ∧
    ((verify_doctor v env fn none (some np) none none).result.details.getD
      []).lookup "cached" = some (.bool false) ∧
    (verify_doctor v env fn none (some np) none none).cache.lookup np
      = some (detailsOfNpiRecord r0) ∧
    (verify_doctor v env fn none (some np) none none).netCalls = 1 ∧
    (verify_doctor
        { v with cache := (verify_doctor v env fn none (some np) none none).cache }
        env fn none (some np) none none).result.status = .verified ∧
    ((verify_doctor
        { v with cache := (verify_doctor v env fn none (some np) none none).cache }
        env fn none (some np) none none).result.details.getD []).lookup "cached"
      = some (.bool true) ∧
    (verify_doctor
        { v with cache := (verify_doctor v env fn none (some np) none none).cache }
        env fn none (some np) none none).netCalls = 0 := by
  have ht := truthy_some_of_ne np hnp
  have hnpi1 := verify_by_npi_active v env fn np resp r0 tl hmiss hl hcount hres hact
  have hcall1 : verify_doctor v env fn none (some np) none none =
      { result := npiVerifiedResult env fn np r0,
        cache := dictInsert v.cache np (detailsOfNpiRecord r0), netCalls := 1 } := by
    simp [verify_doctor, ht, hnpi1, npiVerifiedResult]
  have hhit2 : (dictInsert v.cache np (detailsOfNpiRecord r0)).lookup np
      = some (detailsOfNpiRecord r0) := by
    rw [dictInsert_lookup]; simp
  have hnpi2 := verify_by_npi_cache_hit
    { v with cache := dictInsert v.cache np (detailsOfNpiRecord r0) } env fn np
    (detailsOfNpiRecord r0) hhit2
  have hcall2 : verify_doctor
      { v with cache := dictInsert v.cache np (detailsOfNpiRecord r0) }
      env fn none (some np) none none =
      { result := { field_name := fn, extracted_value := some np,
                    verification_type := .doctor, status := .verified,
                    details := some (dictInsert (detailsOfNpiRecord r0) "cached"
                      (.bool true)),
                    timestamp := env.now, api_response_time := env.elapsedMs },
        cache := dictInsert v.cache np (detailsOfNpiRecord r0), netCalls := 0 } := by
    simp [verify_doctor, ht, hnpi2]
  rw [hcall1]
  refine ⟨rfl, rfl, hhit2, rfl, ?_, ?_, ?_⟩ <;> rw [hcall2]
  simp [dictInsert_lookup]

/-- C6 witness: the round trip at the concrete active-provider environment. -/
theorem C6_witness :
    (verify_doctor {} activeNpiEnv "physician_npi"
      none (some "1234567890") none none).result
        = npiVerifiedResult activeNpiEnv "physician_npi" "1234567890"
            { number := some "1234567890",
              basic := { first_name := some "Jane", last_name := some "Doe",
                         status := some "A", credential := some "MD" } } ∧
    (verify_doctor
        { (({} : DoctorCredentialVerifier)) with cache :=
            (verify_doctor {} activeNpiEnv "physician_npi"
              none (some "1234567890") none none).cache }
        activeNpiEnv "physician_npi" none (some "1234567890") none none).netCalls
      = 0 := by
  have h := C6_npi_cache_roundtrip {} activeNpiEnv "physician_npi" "1234567890"
    activeResp
    { number := some "1234567890",
      basic := { first_name := some "Jane", last_name := some "Doe",
                 status := some "A", credential := some "MD" } }
    [] (by decide) rfl rfl (by decide) rfl rfl
  exact ⟨h.1, h.2.2.2.2.2.2⟩

/-- The cache invariant of the claim: every stored payload was normalized
from an active registry record, so it carries `status = "Active"` and
`cached = false`. -/
def CacheGood (c : List (String × Details)) : Prop :=
  ∀ k d, c.lookup k = some d →
    d.lookup "status" = some (.str "Active") ∧
    d.lookup "cached" = some (.bool false)

theorem cacheGood_insert_npi (c : List (String × Details)) (np : String)
    (r : NpiRecord) (hg : CacheGood c) :
    CacheGood (dictInsert c np (detailsOfNpiRecord r)) := by
  intro k d h
  rw [dictInsert_lookup] at h
  by_cases hk : (k == np) = true
  · rw [if_pos hk] at h
    obtain rfl : detailsOfNpiRecord r = d := by injection h
    exact ⟨rfl, rfl⟩
  · rw [if_neg hk] at h
    exact hg k d h

theorem verify_by_npi_cache_good (v : DoctorCredentialVerifier)
    (env : VerifierEnv) (fn np : String) (hg : CacheGood v.cache) :
    CacheGood (verify_by_npi v env fn np).2.1 := by
  cases hc : v.cache.lookup np with
  | some cached => simpa [verify_by_npi, hc] using hg
  | none =>
      cases he : env.npiLookup np with
      | exn e => simpa [verify_by_npi, hc, he] using hg
      | ok code data =>
        cases h200 : (code == 200 && data.result_count != 0) with
        | false => simpa [verify_by_npi, hc, he, h200] using hg
        | true =>
            cases hres : data.results with
            | nil => simpa [verify_by_npi, hc, he, h200, hres] using hg
            | cons r0 tl =>
              cases hA : ((r0.basic.status.getD "") != "A") with
              | true => simpa [verify_by_npi, hc, he, h200, hres, hA] using hg
              | false =>
                  have : (verify_by_npi v env fn np).2.1 =
                      dictInsert v.cache np (detailsOfNpiRecord r0) := by
                    simp [verify_by_npi, hc, he, h200, hres, hA]
                  rw [this]
                  exact cacheGood_insert_npi v.cache np r0 hg

theorem name_stage_cache (env : VerifierEnv) (fn : String)
    (dn st fb : Option String) (c : List (String × Details)) (acc : Nat) :
    (verify_doctor_name_stage env fn dn st fb c acc).cache = c := by
  cases hg : (truthy dn && truthy st) with
  | false => simp [verify_doctor_name_stage, hg]
  | true =>
      rcases hv : verify_by_name_and_state env fn (dn.getD "") (st.getD "") with ⟨out, n3⟩
      cases out <;> simp [verify_doctor_name_stage, hg, hv]

theorem license_stage_cache (v : DoctorCredentialVerifier) (env : VerifierEnv)
    (fn : String) (dn ln st fb : Option String)
    (c : List (String × Details)) (acc : Nat) :
    (verify_doctor_license_stage v env fn dn ln st fb c acc).cache = c := by
  cases hg : (truthy ln && truthy st && truthy v.state_license_api_endpoint) with
  | false => simp [verify_doctor_license_stage, hg, name_stage_cache]
  | true =>
      rcases hv : verify_by_state_license v env fn (ln.getD "") (st.getD "") with ⟨out, n2⟩
      cases out with
      | error e => simp [verify_doctor_license_stage, hg, hv]
      | ok r =>
          cases hst : (r.status == VerificationStatus.verified) with
          | true => simp [verify_doctor_license_stage, hg, hv, hst]
          | false => simp [verify_doctor_license_stage, hg, hv, hst, name_stage_cache]

/-- C10: (1) the cache invariant is preserved by every `verify_doctor` call —
entries are only ever written from a registry record whose status flag was
active, carrying `status = "Active"` and `cached = false`; (2) once a number
is cached, any later request carrying it returns VERIFIED from the cache with
zero HTTP requests, whatever the registry would now answer. -/
theorem C10_cache_invariant :
    (∀ (v : DoctorCredentialVerifier) (env : VerifierEnv) (fn : String)
       (dn np lic st : Option String),
       CacheGood v.cache →
       CacheGood (verify_doctor v env fn dn np lic st).cache) ∧
    (∀ (v : DoctorCredentialVerifier) (env : VerifierEnv) (fn n : String)
       (d : Details),
       n ≠ "" → v.cache.lookup n = some d →
       (verify_doctor v env fn none (some n) none none).result.status = .verified ∧
       (verify_doctor v env fn none (some n) none none).netCalls = 0) := by
  constructor
  · intro v env fn dn np lic st hg
    cases hgnp : truthy np with
    | false =>
        have : (verify_doctor v env fn dn np lic st).cache = v.cache := by
          simp [verify_doctor, hgnp, license_stage_cache]
        rw [this]; exact hg
    | true =>
        rcases hv : verify_by_npi v env fn (np.getD "") with ⟨out, c, n⟩
        have hcg : CacheGood c := by
          have h := verify_by_npi_cache_good v env fn (np.getD "") hg
          rw [hv] at h; exact h
        cases out with
        | error e =>
            have : (verify_doctor v env fn dn np lic st).cache = c := by
              simp [verify_doctor, hgnp, hv]
            rw [this]; exact hcg
        | ok r =>
            cases hst : (r.status == VerificationStatus.verified) with
            | true =>
                have : (verify_doctor v env fn dn np lic st).cache = c := by
                  simp [verify_doctor, hgnp, hv, hst]
                rw [this]; exact hcg
            | false =>
                have : (verify_doctor v env fn dn np lic st).cache = c := by
                  simp [verify_doctor, hgnp, hv, hst, license_stage_cache]
                rw [this]; exact hcg
  · intro v env fn n d hn hhit
    have ht := truthy_some_of_ne n hn
    have hnpi := verify_by_npi_cache_hit v env fn n d hhit
    constructor <;> simp [verify_doctor, ht, hnpi]

/-- C10 witness: the invariant theorem applied to a concrete call that
populates the cache from the active-provider environment, and to a concrete
cache-hit request against an environment whose registry now answers 404. -/
theorem C10_witness :
    CacheGood (verify_doctor {} activeNpiEnv "physician_npi"
      none (some "1234567890") none none).cache ∧
    (verify_doctor
        { cache := [("1234567890",
            [("status", .str "Active"), ("cached", .bool false)])] }
        stubEnv "physician_npi" none (some "1234567890") none none).result.status
      = .verified ∧
    (verify_doctor
        { cache := [("1234567890",
            [("status", .str "Active"), ("cached", .bool false)])] }
        stubEnv "physician_npi" none (some "1234567890") none none).netCalls = 0 := by
  refine ⟨C10_cache_invariant.1 {} activeNpiEnv "physician_npi"
      none (some "1234567890") none none ?_, ?_, ?_⟩
  · intro k d h
    simp [List.lookup] at h
  · exact (C10_cache_invariant.2
      { cache := [("1234567890",
          [("status", .str "Active"), ("cached", .bool false)])] }
      stubEnv "physician_npi" "1234567890"
      [("status", .str "Active"), ("cached", .bool false)]
      (by decide) rfl).1
  · exact (C10_cache_invariant.2
      { cache := [("1234567890",
          [("status", .str "Active"), ("cached", .bool false)])] }
      stubEnv "physician_npi" "1234567890"
      [("status", .str "Active"), ("cached", .bool false)]
      (by decide) rfl).2

/-! ## Claim C9: the confidence-merge leaf rules -/

/-- C9: the merge rule per leaf — for same-shaped trees the merged confidence
is `min(a, b)` when both scores are present and non-null, the present value
when exactly one is null, and when both are null the leaf joins the
zero-confidence fields and is excluded from the evaluated-field count (and
hence from the mean); the structural merge applies the rule (with 3-place
rounding) at each leaf, preserving the extracted value, as on the concrete
`{field1: 0.95} / {field1: 0.90}` instance from the tests. -/
theorem C9_merge_leaf_rules :
    (∀ x y : ℚ, mergeLeafConfidence (some x) (some y) = some (min x y)) ∧
    (∀ x : ℚ, mergeLeafConfidence (some x) none = some x ∧
              mergeLeafConfidence none (some x) = some x) ∧
    mergeLeafConfidence none none = none ∧
    (∀ (k va vb : String) (x y : ℚ),
      mergeTrees (.node [(k, .leaf (some x) va)]) (.node [(k, .leaf (some y) vb)])
        = .node [(k, .leaf (some (round3 (min x y))) va)]) ∧
    (∀ (k va vb : String),
      (merge_confidence_values (.node [(k, .leaf none va)])
        (.node [(k, .leaf none vb)])).zero_confidence_fields = [k] ∧
      (merge_confidence_values (.node [(k, .leaf none va)])
        (.node [(k, .leaf none vb)])).total_evaluated_fields_count = 0) ∧
    (merge_confidence_values
        (.node [("field1", .leaf (some 0.95) "test")])
        (.node [("field1", .leaf (some 0.90) "test")])).merged
      = .node [("field1", .leaf (some 0.90) "test")] := by
  refine ⟨fun x y => rfl, fun x => ⟨rfl, rfl⟩, rfl, ?_, ?_, ?_⟩
  · intro k va vb x y
    simp [mergeTrees, mergeFields, List.lookup, mergeLeafConfidence,
      roundOptConfidence]
  · intro k va vb
    simp [merge_confidence_values, mergeTrees, mergeFields, List.lookup,
      mergeLeafConfidence, roundOptConfidence, collectLeaves, collectFieldLeaves,
      joinPath, isZeroLeaf]
  · with_unfolding_all rfl

end ContentVerify
